import Mathlib

/-!
# Verification of the aibot content pipeline

A shallow embedding of the content-pipeline core of the `aibot` repository
(`src/app/tasks.py`, `src/app/utils.py`, `src/app/telegram/publisher.py`,
`src/app/api/endpoints.py`, `src/app/models.py`), together with theorems
settling the stated properties of its specification.

Conventions of the embedding:
* Database tables are Lean lists of records; a task run is a pure function
  from the table state (plus the results of external calls, passed as
  parameters) to the next table state and its observable effects.
* The MD5 hex digest used for news ids and url-hashes is an arbitrary
  function parameter `h : String → String`: every property proved here
  holds for any deterministic digest, which is all the code relies on.
* The language detector (`langdetect.detect`) is a parameter
  `detect : String → Option String`, `none` standing for
  `LangDetectException`.
* Timestamps are integers (seconds since epoch, UTC); `datetime.now` is a
  `now : Int` parameter.
* Python truthiness of optional strings / lists / ints is modelled
  explicitly (`""`, `[]` and `0` are falsy).
-/

namespace Aibot

/-! ## Data model (src/app/models.py) -/

/-- `PostStatus` (models.py lines 22-26). -/
inductive PostStatus where
  | NEW
  | GENERATED
  | PUBLISHED
  | FAILED
deriving DecidableEq, Repr

/-- `SourceType` (models.py lines 17-19). -/
inductive SourceType where
  | SITE
  | TELEGRAM
deriving DecidableEq, Repr

/-- A row of `news_items` (models.py lines 53-75). -/
structure NewsItem where
  id : String
  title : String
  url : Option String
  summary : String
  source : String
  source_id : Option Int
  published_at : Int
  raw_text : Option String
  created_at : Int
deriving DecidableEq, Repr

/-- A row of `posts` (models.py lines 78-90). -/
structure Post where
  id : Nat
  news_id : String
  generated_text : String
  published_at : Option Int
  status : PostStatus
  created_at : Int
deriving DecidableEq, Repr

/-- A row of `sources` (models.py lines 29-41). -/
structure Source where
  id : Int
  type : SourceType
  name : String
  url : String
  enabled : Bool
  created_at : Int
deriving DecidableEq, Repr

/-- A row of `keywords` (models.py lines 44-50). -/
structure Keyword where
  id : Nat
  word : String
deriving DecidableEq, Repr

/-! ## Python truthiness helpers -/

/-- Truthiness of an optional string: `None` and `""` are falsy. -/
def strOptTruthy : Option String → Bool
  | none => false
  | some s => s ≠ ""

/-- Truthiness of an optional int list: `None` and `[]` are falsy. -/
def intListOptTruthy : Option (List Int) → Bool
  | none => false
  | some l => !l.isEmpty

/-- Truthiness of an optional int: `None` and `0` are falsy. -/
def natOptTruthy : Option Nat → Bool
  | none => false
  | some n => n ≠ 0

/-! ## Ingestion recorder (src/app/tasks.py, `_save_news_items`, lines 103-163) -/

/-- `item.get('url') or item.get('title', '')` (tasks.py line 116): Python `or`
falls through on an absent or empty url. -/
def orElseStr (a : Option String) (b : String) : String :=
  match a with
  | some s => if s = "" then b else s
  | none => b

/-- A raw fetched item, the dict consumed by `_save_news_items`.  `title` is
required (`item['title']`, tasks.py line 139); the other keys are read with
`.get`. -/
structure RawItem where
  title : String
  url : Option String
  summary : Option String
  source : Option String
  published_at : Option Int
  raw_text : Option String
deriving DecidableEq, Repr

/-- The dedup key of a raw item: its url when present and non-empty, else its
title (tasks.py line 116). -/
def rawItemKey (item : RawItem) : String :=
  orElseStr item.url item.title

/-- The `NewsItem` row inserted for a fresh raw item (tasks.py lines 131-147).
An absent `published_at` is replaced by the current time; the tz-normalisation
of naive datetimes is invisible here because timestamps are already UTC
integers. -/
def mkNewsItem (h : String → String) (now : Int) (item : RawItem)
    (source_id : Int) : NewsItem :=
  { id := h (rawItemKey item)
    title := item.title
    url := item.url
    summary := item.summary.getD ""
    source := item.source.getD ""
    source_id := some source_id
    published_at := item.published_at.getD now
    raw_text := item.raw_text
    created_at := now }

/-- `_save_news_items` (tasks.py lines 103-163).  The run opens one session;
the existence check (lines 119-129) queries the database as it stood when the
run began (the session has `autoflush=False`, so rows added earlier in the same
batch are not yet visible to the `SELECT`), pending inserts are committed
together at the end (line 154).  Returns the committed table and
`saved_count`. -/
def _save_news_items (h : String → String) (now : Int)
    (news_items : List RawItem) (source_id : Int) (db : List NewsItem) :
    List NewsItem × Nat :=
  news_items.foldl
    (fun acc item =>
      let news_id := h (rawItemKey item)
      if db.any (fun n => n.id = news_id) then acc
      else (acc.1 ++ [mkNewsItem h now item source_id], acc.2 + 1))
    (db, 0)

theorem save_news_items_nil (h : String → String) (now : Int) (sid : Int)
    (db : List NewsItem) : _save_news_items h now [] sid db = (db, 0) := rfl

theorem save_news_items_singleton (h : String → String) (now : Int)
    (item : RawItem) (sid : Int) (db : List NewsItem) :
    _save_news_items h now [item] sid db =
      if db.any (fun n => n.id = h (rawItemKey item)) then (db, 0)
      else (db ++ [mkNewsItem h now item sid], 1) := rfl

/-- C1.  Ingesting one fresh item stores exactly one unit keyed by the digest
of its url-or-title; re-running on an item with the same key inserts nothing,
reports 0, and leaves the whole table — hence every stored field of the
first-seen unit — unchanged. -/
theorem ingestion_idempotent (h : String → String) (now now₂ : Int)
    (item item₂ : RawItem) (sid sid₂ : Int) (db : List NewsItem)
    (hkey : rawItemKey item₂ = rawItemKey item)
    (hfresh : db.any (fun n => n.id = h (rawItemKey item)) = false) :
    (_save_news_items h now [item] sid db).2 = 1 ∧
    (_save_news_items h now₂ [item₂] sid₂
        (_save_news_items h now [item] sid db).1).2 = 0 ∧
    (_save_news_items h now₂ [item₂] sid₂
        (_save_news_items h now [item] sid db).1).1 =
      (_save_news_items h now [item] sid db).1 ∧
    ((_save_news_items h now [item] sid db).1.filter
        (fun n => n.id = h (rawItemKey item))).length = 1 ∧
    (_save_news_items h now [item] sid db).1 =
      db ++ [mkNewsItem h now item sid] := by
  have h1 : _save_news_items h now [item] sid db =
      (db ++ [mkNewsItem h now item sid], 1) := by
    rw [save_news_items_singleton, hfresh]
    simp
  have hmem : (db ++ [mkNewsItem h now item sid]).any
      (fun n => n.id = h (rawItemKey item₂)) = true := by
    rw [hkey]
    simp [List.any_append, mkNewsItem]
  have h2 : _save_news_items h now₂ [item₂] sid₂
      (db ++ [mkNewsItem h now item sid]) =
      (db ++ [mkNewsItem h now item sid], 0) := by
    rw [save_news_items_singleton, hmem]
    simp
  have hfilter : (db.filter (fun n => n.id = h (rawItemKey item))) = [] := by
    rw [List.filter_eq_nil_iff]
    intro n hn
    have := List.any_eq_false.mp hfresh n hn
    simpa using this
  refine ⟨by rw [h1], ?_, ?_, ?_, by rw [h1]⟩
  · rw [h1, h2]
  · rw [h1, h2]
  · rw [h1]
    simp [List.filter_append, hfilter, mkNewsItem]

/-- C1 witness: scenario A — ingest `{url:"http://x/1", title:"T1",
published_at:...}` twice; the first call reports 1 new unit, the second 0 and
nothing changes.  The digest is instantiated with the identity function. -/
theorem ingestion_idempotent_witness :
    (_save_news_items (fun s => s) 10
        [⟨"T1", some "http://x/1", none, none, some 1704067200, none⟩]
        1 []).2 = 1 ∧
    (_save_news_items (fun s => s) 20
        [⟨"T1", some "http://x/1", none, none, some 1704067200, none⟩]
        1 (_save_news_items (fun s => s) 10
            [⟨"T1", some "http://x/1", none, none, some 1704067200, none⟩]
            1 []).1).2 = 0 := by
  have := ingestion_idempotent (fun s => s) 10 20
    ⟨"T1", some "http://x/1", none, none, some 1704067200, none⟩
    ⟨"T1", some "http://x/1", none, none, some 1704067200, none⟩
    1 1 [] rfl (by decide)
  exact ⟨this.1, this.2.1⟩

/-! ## Filter engine (src/app/utils.py) -/

/-- Python `str.lower()`.  Character-wise ASCII case mapping; no property
proved here depends on the case mapping of non-ASCII letters. -/
def strLower (s : String) : String :=
  (s.toList.map Char.toLower).asString

/-- Python `str.strip()`: drop leading and trailing whitespace. -/
def strTrim (s : String) : String :=
  ((s.toList.dropWhile Char.isWhitespace).reverse.dropWhile
    Char.isWhitespace).reverse.asString

/-- Is `needle` a contiguous run inside the second list? -/
def containsRun (needle : List Char) : List Char → Bool
  | [] => needle.isEmpty
  | c :: rest => needle.isPrefixOf (c :: rest) || containsRun needle rest

/-- Substring test, Python's `needle in hay` for strings. -/
def strContains (hay needle : String) : Bool :=
  containsRun needle.toList hay.toList

/-- `detect_language` (utils.py lines 41-62).  `detect` is the external
`langdetect.detect`, `none` standing for `LangDetectException` (and any other
detector failure, which the function also maps to `'unknown'`). -/
def detect_language (detect : String → Option String) (text : String) :
    String :=
  if text = "" ∨ (strTrim text).length < 3 then "unknown"
  else (detect text).getD "unknown"

/-- `matches_keywords` (utils.py lines 65-94).  `db = some dbKeywords` models a
supplied session, from which the keyword list is re-fetched and lowercased
(lines 84-87). -/
def matches_keywords (news_item : NewsItem) (keywords : List String)
    (db : Option (List Keyword)) : Bool :=
  if keywords.isEmpty then true
  else
    let kws : List String := match db with
      | some dbKeywords => dbKeywords.map (fun k => strLower k.word)
      | none => keywords
    let text₀ := strLower (news_item.title ++ " " ++ news_item.summary)
    let text_to_search := match news_item.raw_text with
      | some rt => if rt ≠ "" then text₀ ++ " " ++ strLower rt else text₀
      | none => text₀
    (kws.map strLower).any (fun kw => strContains text_to_search kw)

/-- `is_duplicate` (utils.py lines 97-130): another stored unit (different id)
with an equal url digest, or an equal case-insensitive title. -/
def is_duplicate (h : String → String) (news_item : NewsItem)
    (db : List NewsItem) : Bool :=
  let existing_news := db.filter (fun n => n.id ≠ news_item.id)
  let urlDup := match news_item.url with
    | some u =>
        if u ≠ "" then
          existing_news.any (fun e =>
            match e.url with
            | some eu => if eu ≠ "" then h u = h eu else false
            | none => false)
        else false
    | none => false
  urlDup || existing_news.any
    (fun e => strLower news_item.title = strLower e.title)

/-- The reason string of the failed language check (utils.py lines 161-165). -/
def langReason (detected required : String) : String :=
  "Язык новости (" ++ detected ++ ") не соответствует требуемому ("
    ++ required ++ ")"

/-- Python's rendering of an optional int in an f-string. -/
def intOptStr : Option Int → String
  | none => "None"
  | some i => toString i

/-- The reason string of the failed allow-list check (utils.py lines 169-172). -/
def allowReason (source_id : Option Int) : String :=
  "Источник " ++ intOptStr source_id ++ " не в списке разрешенных"

/-- The reason string of the failed deny-list check (utils.py lines 176-179). -/
def denyReason (source_id : Option Int) : String :=
  "Источник " ++ intOptStr source_id ++ " в списке исключенных"

/-- The reason string of the failed keyword check (utils.py lines 186-189). -/
def keywordReason : String := "Новость не содержит ключевых слов"

/-- The reason string of the failed duplicate check (utils.py lines 193-196). -/
def duplicateReason : String := "Найдена похожая новость (дубль)"

/-- The reason string of a passing unit (utils.py line 198). -/
def passedReason : String := "Новость прошла все проверки"

/-- `news_item.source_id not in required_source_ids` (utils.py line 168);
a `None` source_id is never a member of the int list. -/
def sourceIdNotIn (source_id : Option Int) (l : List Int) : Bool :=
  match source_id with
  | none => true
  | some i => !l.contains i

/-- The checks of `should_generate_post` after the language check
(utils.py lines 167-198): allow-list → deny-list → keywords → duplicates,
then pass. -/
def should_generate_post_rest (h : String → String) (news_item : NewsItem)
    (db : List NewsItem) (dbKeywords : List Keyword)
    (required_source_ids exclude_source_ids : Option (List Int))
    (check_keywords check_duplicates : Bool) : Bool × String :=
  if intListOptTruthy required_source_ids ∧
      sourceIdNotIn news_item.source_id (required_source_ids.getD []) then
    (false, allowReason news_item.source_id)
  else if intListOptTruthy exclude_source_ids ∧
      !sourceIdNotIn news_item.source_id (exclude_source_ids.getD []) then
    (false, denyReason news_item.source_id)
  else if check_keywords ∧ !dbKeywords.isEmpty ∧
      !matches_keywords news_item (dbKeywords.map (·.word))
        (some dbKeywords) then
    (false, keywordReason)
  else if check_duplicates ∧ is_duplicate h news_item db then
    (false, duplicateReason)
  else (true, passedReason)

/-- `should_generate_post` (utils.py lines 133-198): the checks run in the
fixed order language → allow-list → deny-list → keywords → duplicates, each
failing check returning `(false, reason)` at once.  Options follow Python
truthiness (`required_language=""` or an empty id list behave like `None`).
`dbKeywords` is the `keywords` table read by the keyword check
(lines 182-183). -/
def should_generate_post (detect : String → Option String)
    (h : String → String) (news_item : NewsItem) (db : List NewsItem)
    (dbKeywords : List Keyword)
    (required_language : Option String := none)
    (required_source_ids : Option (List Int) := none)
    (exclude_source_ids : Option (List Int) := none)
    (check_keywords : Bool := false)
    (check_duplicates : Bool := true) : Bool × String :=
  if strOptTruthy required_language then
    let lang := required_language.getD ""
    let news_text := news_item.title ++ " " ++ news_item.summary
    let detected_lang := detect_language detect news_text
    if detected_lang ≠ lang then (false, langReason detected_lang lang)
    else should_generate_post_rest h news_item db dbKeywords
      required_source_ids exclude_source_ids check_keywords check_duplicates
  else should_generate_post_rest h news_item db dbKeywords
    required_source_ids exclude_source_ids check_keywords check_duplicates

theorem rest_allow_fail (h : String → String) (news_item : NewsItem)
    (db : List NewsItem) (dbKeywords : List Keyword)
    (rs es : Option (List Int)) (ck cd : Bool)
    (ha : intListOptTruthy rs = true)
    (hb : sourceIdNotIn news_item.source_id (rs.getD []) = true) :
    should_generate_post_rest h news_item db dbKeywords rs es ck cd =
      (false, allowReason news_item.source_id) := by
  simp [should_generate_post_rest, ha, hb]

theorem rest_deny_fail (h : String → String) (news_item : NewsItem)
    (db : List NewsItem) (dbKeywords : List Keyword)
    (rs es : Option (List Int)) (ck cd : Bool)
    (ha : ¬(intListOptTruthy rs = true ∧
        sourceIdNotIn news_item.source_id (rs.getD []) = true))
    (hb : intListOptTruthy es = true)
    (hc : sourceIdNotIn news_item.source_id (es.getD []) = false) :
    should_generate_post_rest h news_item db dbKeywords rs es ck cd =
      (false, denyReason news_item.source_id) := by
  simp only [should_generate_post_rest]
  rw [if_neg (by simpa using ha), if_pos (by simp [hb, hc])]

theorem rest_keyword_fail (h : String → String) (news_item : NewsItem)
    (db : List NewsItem) (dbKeywords : List Keyword)
    (rs es : Option (List Int)) (ck cd : Bool)
    (ha : ¬(intListOptTruthy rs = true ∧
        sourceIdNotIn news_item.source_id (rs.getD []) = true))
    (hb : ¬(intListOptTruthy es = true ∧
        sourceIdNotIn news_item.source_id (es.getD []) = false))
    (hc : ck = true) (hd : dbKeywords.isEmpty = false)
    (he : matches_keywords news_item (dbKeywords.map (·.word))
        (some dbKeywords) = false) :
    should_generate_post_rest h news_item db dbKeywords rs es ck cd =
      (false, keywordReason) := by
  simp only [should_generate_post_rest]
  rw [if_neg (by simpa using ha), if_neg (by simpa using hb),
    if_pos (by simp [hc, hd, he])]

theorem rest_duplicate_fail (h : String → String) (news_item : NewsItem)
    (db : List NewsItem) (dbKeywords : List Keyword)
    (rs es : Option (List Int)) (ck cd : Bool)
    (ha : ¬(intListOptTruthy rs = true ∧
        sourceIdNotIn news_item.source_id (rs.getD []) = true))
    (hb : ¬(intListOptTruthy es = true ∧
        sourceIdNotIn news_item.source_id (es.getD []) = false))
    (hc : ¬(ck = true ∧ dbKeywords.isEmpty = false ∧
        matches_keywords news_item (dbKeywords.map (·.word))
          (some dbKeywords) = false))
    (hd : cd = true) (he : is_duplicate h news_item db = true) :
    should_generate_post_rest h news_item db dbKeywords rs es ck cd =
      (false, duplicateReason) := by
  simp only [should_generate_post_rest]
  rw [if_neg (by simpa using ha), if_neg (by simpa using hb),
    if_neg (by simpa using hc), if_pos (by simp [hd, he])]

theorem rest_pass (h : String → String) (news_item : NewsItem)
    (db : List NewsItem) (dbKeywords : List Keyword)
    (rs es : Option (List Int)) (ck cd : Bool)
    (ha : ¬(intListOptTruthy rs = true ∧
        sourceIdNotIn news_item.source_id (rs.getD []) = true))
    (hb : ¬(intListOptTruthy es = true ∧
        sourceIdNotIn news_item.source_id (es.getD []) = false))
    (hc : ¬(ck = true ∧ dbKeywords.isEmpty = false ∧
        matches_keywords news_item (dbKeywords.map (·.word))
          (some dbKeywords) = false))
    (hd : ¬(cd = true ∧ is_duplicate h news_item db = true)) :
    should_generate_post_rest h news_item db dbKeywords rs es ck cd =
      (true, passedReason) := by
  simp only [should_generate_post_rest]
  rw [if_neg (by simpa using ha), if_neg (by simpa using hb),
    if_neg (by simpa using hc), if_neg (by simpa using hd)]

/-- When the language check passes (not requested, or the detected language
matches), `should_generate_post` reduces to the remaining checks. -/
theorem should_generate_post_lang_pass (detect : String → Option String)
    (h : String → String) (news_item : NewsItem) (db : List NewsItem)
    (dbKeywords : List Keyword) (rl : Option String)
    (rs es : Option (List Int)) (ck cd : Bool)
    (hl : strOptTruthy rl = false ∨
      detect_language detect (news_item.title ++ " " ++ news_item.summary)
        = rl.getD "") :
    should_generate_post detect h news_item db dbKeywords rl rs es ck cd =
      should_generate_post_rest h news_item db dbKeywords rs es ck cd := by
  rcases hl with hl | hl
  · simp [should_generate_post, hl]
  · simp only [should_generate_post]
    split
    · rw [if_neg (by simpa using hl)]
    · rfl

/-- C5.  `should_generate_post` evaluates language, allow-list, deny-list,
keyword and duplicate checks in this fixed order and returns the first failing
check's reason: a failing language check wins over everything later (in
particular over a failing duplicate check), and each later check's reason is
returned exactly when all earlier checks pass; when every check passes the
result is `(true, passedReason)`. -/
theorem filter_fixed_order (detect : String → Option String)
    (h : String → String) (news_item : NewsItem) (db : List NewsItem)
    (dbKeywords : List Keyword) (rl : Option String)
    (rs es : Option (List Int)) (ck cd : Bool) :
    (strOptTruthy rl = true →
      detect_language detect (news_item.title ++ " " ++ news_item.summary)
        ≠ rl.getD "" →
      should_generate_post detect h news_item db dbKeywords rl rs es ck cd =
        (false, langReason
          (detect_language detect
            (news_item.title ++ " " ++ news_item.summary)) (rl.getD ""))) ∧
    ((strOptTruthy rl = false ∨
      detect_language detect (news_item.title ++ " " ++ news_item.summary)
        = rl.getD "") →
      ((intListOptTruthy rs = true ∧
          sourceIdNotIn news_item.source_id (rs.getD []) = true →
        should_generate_post detect h news_item db dbKeywords rl rs es ck cd =
          (false, allowReason news_item.source_id)) ∧
      (¬(intListOptTruthy rs = true ∧
          sourceIdNotIn news_item.source_id (rs.getD []) = true) →
        intListOptTruthy es = true →
        sourceIdNotIn news_item.source_id (es.getD []) = false →
        should_generate_post detect h news_item db dbKeywords rl rs es ck cd =
          (false, denyReason news_item.source_id)) ∧
      (¬(intListOptTruthy rs = true ∧
          sourceIdNotIn news_item.source_id (rs.getD []) = true) →
        ¬(intListOptTruthy es = true ∧
          sourceIdNotIn news_item.source_id (es.getD []) = false) →
        ck = true → dbKeywords.isEmpty = false →
        matches_keywords news_item (dbKeywords.map (·.word))
          (some dbKeywords) = false →
        should_generate_post detect h news_item db dbKeywords rl rs es ck cd =
          (false, keywordReason)) ∧
      (¬(intListOptTruthy rs = true ∧
          sourceIdNotIn news_item.source_id (rs.getD []) = true) →
        ¬(intListOptTruthy es = true ∧
          sourceIdNotIn news_item.source_id (es.getD []) = false) →
        ¬(ck = true ∧ dbKeywords.isEmpty = false ∧
          matches_keywords news_item (dbKeywords.map (·.word))
            (some dbKeywords) = false) →
        cd = true → is_duplicate h news_item db = true →
        should_generate_post detect h news_item db dbKeywords rl rs es ck cd =
          (false, duplicateReason)) ∧
      (¬(intListOptTruthy rs = true ∧
          sourceIdNotIn news_item.source_id (rs.getD []) = true) →
        ¬(intListOptTruthy es = true ∧
          sourceIdNotIn news_item.source_id (es.getD []) = false) →
        ¬(ck = true ∧ dbKeywords.isEmpty = false ∧
          matches_keywords news_item (dbKeywords.map (·.word))
            (some dbKeywords) = false) →
        ¬(cd = true ∧ is_duplicate h news_item db = true) →
        should_generate_post detect h news_item db dbKeywords rl rs es ck cd =
          (true, passedReason)))) := by
  constructor
  · intro h1 h2
    simp only [should_generate_post, h1, if_true]
    rw [if_pos (by simpa using h2)]
  · intro hl
    have hred := should_generate_post_lang_pass detect h news_item db
      dbKeywords rl rs es ck cd hl
    refine ⟨?_, ?_, ?_, ?_, ?_⟩
    · intro ⟨ha, hb⟩
      rw [hred, rest_allow_fail h news_item db dbKeywords rs es ck cd ha hb]
    · intro ha hb hc
      rw [hred, rest_deny_fail h news_item db dbKeywords rs es ck cd ha hb hc]
    · intro ha hb hc hd he
      rw [hred,
        rest_keyword_fail h news_item db dbKeywords rs es ck cd ha hb hc hd he]
    · intro ha hb hc hd he
      rw [hred,
        rest_duplicate_fail h news_item db dbKeywords rs es ck cd ha hb hc
          hd he]
    · intro ha hb hc hd
      rw [hred, rest_pass h news_item db dbKeywords rs es ck cd ha hb hc hd]

/-- C5 witness: a unit whose detected language (`en`) misses the required one
(`ru`) and which is also a duplicate (another stored unit shares its title)
reports the language reason, the first failing check. -/
theorem filter_fixed_order_witness :
    should_generate_post (fun _ => some "en") (fun s => s)
        ⟨"CatNews", "CatNews", none, "s", "src", some 1, 0, none, 0⟩
        [⟨"other", "catnews", none, "s", "src", some 1, 0, none, 0⟩]
        [] (some "ru") none none false true =
      (false, langReason "en" "ru") ∧
    is_duplicate (fun s => s)
        ⟨"CatNews", "CatNews", none, "s", "src", some 1, 0, none, 0⟩
        [⟨"other", "catnews", none, "s", "src", some 1, 0, none, 0⟩] = true := by
  refine ⟨?_, by decide⟩
  have := (filter_fixed_order (fun _ => some "en") (fun s => s)
    ⟨"CatNews", "CatNews", none, "s", "src", some 1, 0, none, 0⟩
    [⟨"other", "catnews", none, "s", "src", some 1, 0, none, 0⟩]
    [] (some "ru") none none false true).1 (by decide) (by decide)
  rw [this]
  decide

/-! ## Generation dispatcher (src/app/tasks.py, `_process_news_items_async`,
lines 346-444) and generation task (`_generate_post_for_news_async`,
lines 464-523) -/

/-- `NEWS_ITEMS_PROCESS_LIMIT` (tasks.py line 35). -/
def NEWS_ITEMS_PROCESS_LIMIT : Nat := 100

/-- `PUBLISH_BATCH_LIMIT` (tasks.py line 36). -/
def PUBLISH_BATCH_LIMIT : Nat := 10

/-- `GENERATE_MAX_RETRIES` (tasks.py line 43), declared on the
`generate_post_for_news` decorator. -/
def GENERATE_MAX_RETRIES : Nat := 3

/-- `GENERATE_RETRY_DELAY_SECONDS` (tasks.py line 44), declared on the
`generate_post_for_news` decorator. -/
def GENERATE_RETRY_DELAY_SECONDS : Nat := 60

/-- Insertion step of the `published_at`-descending sort. -/
def insertByPublishedDesc (a : NewsItem) : List NewsItem → List NewsItem
  | [] => [a]
  | b :: l =>
      if b.published_at ≤ a.published_at then a :: b :: l
      else b :: insertByPublishedDesc a l

/-- `ORDER BY published_at DESC` (tasks.py line 351). -/
def sortNewsDesc : List NewsItem → List NewsItem
  | [] => []
  | a :: l => insertByPublishedDesc a (sortNewsDesc l)

/-- The processing window of one dispatch sweep (tasks.py lines 349-353):
the stored units ordered by `published_at` descending, capped at
`NEWS_ITEMS_PROCESS_LIMIT`. -/
def selectNewsForProcessing (db : List NewsItem) : List NewsItem :=
  (sortNewsDesc db).take NEWS_ITEMS_PROCESS_LIMIT

theorem mem_insertByPublishedDesc {a b : NewsItem} {l : List NewsItem} :
    a ∈ insertByPublishedDesc b l ↔ a = b ∨ a ∈ l := by
  induction l with
  | nil => simp [insertByPublishedDesc]
  | cons c l ih =>
      simp only [insertByPublishedDesc]
      split
      · simp
      · simp only [List.mem_cons, ih]
        tauto

theorem mem_sortNewsDesc {a : NewsItem} {l : List NewsItem} :
    a ∈ sortNewsDesc l ↔ a ∈ l := by
  induction l with
  | nil => simp [sortNewsDesc]
  | cons b l ih => simp [sortNewsDesc, mem_insertByPublishedDesc, ih]

theorem mem_selectNewsForProcessing {v : NewsItem} {db : List NewsItem}
    (hv : v ∈ selectNewsForProcessing db) : v ∈ db := by
  have := List.take_subset NEWS_ITEMS_PROCESS_LIMIT (sortNewsDesc db) hv
  exact mem_sortNewsDesc.mp this

/-- Per-item decision of the dispatch sweep (tasks.py lines 368-434): run the
filter with `check_keywords=False` and the other options at their defaults
(lines 370-373); skip when a PUBLISHED artifact for the unit exists
(lines 383-398); skip when a NEW or GENERATED artifact exists — an operation
already in flight (lines 400-416); otherwise enqueue `generate_post_for_news`
(line 434).  The `scalar_one_or_none` calls raise on multiple rows; the
surrounding `except` (lines 436-440) turns that into a skip as well, so the
decision reduces to the pure existence tests below. -/
def dispatchStep (h : String → String) (db : List NewsItem)
    (dbKeywords : List Keyword) (posts : List Post)
    (news_item : NewsItem) : Bool :=
  let sg := (should_generate_post (fun _ => none) h news_item db dbKeywords
    none none none false true).1
  if !sg then false
  else if posts.any (fun p =>
      p.news_id = news_item.id ∧ p.status = PostStatus.PUBLISHED) then false
  else if posts.any (fun p => p.news_id = news_item.id ∧
      (p.status = PostStatus.GENERATED ∨ p.status = PostStatus.NEW)) then false
  else true

/-- `_process_news_items_async` (tasks.py lines 346-444): the ids of the units
for which one sweep enqueues a generation task, in window order.  The sweep
mutates nothing; its only pipeline effect is this enqueue list (the staggered
`time.sleep` before each enqueue, lines 423-433, only spaces the enqueues
out). -/
def _process_news_items_async (h : String → String) (db : List NewsItem)
    (dbKeywords : List Keyword) (posts : List Post) : List String :=
  ((selectNewsForProcessing db).filter
    (fun news_item => dispatchStep h db dbKeywords posts news_item)).map
    (fun news_item => news_item.id)

/-- The observable outcome of one delivery of the `generate_post_for_news`
task. -/
structure GenTaskResult where
  /-- the `posts` table after the run -/
  posts : List Post
  /-- the post id passed to `publish_post.delay` (tasks.py line 516), when
  generation succeeded -/
  enqueued_publish : Option Nat
  /-- whether an `AIProviderError` was logged (tasks.py line 518) -/
  provider_error_logged : Bool
  /-- the delay of a Celery retry requested by this run.  The decorator
  declares `max_retries=GENERATE_MAX_RETRIES` and
  `default_retry_delay=GENERATE_RETRY_DELAY_SECONDS` (tasks.py lines 450-451),
  but those apply only to an explicit `self.retry()` call or an
  `autoretry_for` clause, neither of which the task has: the body catches
  `AIProviderError` (line 517) and every other exception (line 519) and
  returns normally, so no run ever requests a retry. -/
  retry_delay : Option Nat
deriving DecidableEq, Repr

/-- `_generate_post_for_news_async` (tasks.py lines 464-523).  `genResult` is
the outcome of the external `PostGenerator.generate_post` call:
`Except.error ()` models a raised `AIProviderError`, `Except.ok text` the
generated text.  On success the single existing GENERATED artifact of the unit
is overwritten in place (lines 487-497), else a fresh GENERATED row is
inserted with id `next_post_id` (lines 499-504); two or more GENERATED rows
make `scalar_one_or_none` raise, which the blanket `except` (line 519) turns
into a no-op without commit. -/
def _generate_post_for_news_async (db : List NewsItem) (posts : List Post)
    (news_id : String) (genResult : Except Unit String) (next_post_id : Nat)
    (now : Int) : GenTaskResult :=
  if !(db.any (fun n => n.id = news_id)) then ⟨posts, none, false, none⟩
  else
    match genResult with
    | .error _ => ⟨posts, none, true, none⟩
    | .ok generated_text =>
      match posts.filter (fun p =>
          p.news_id = news_id ∧ p.status = PostStatus.GENERATED) with
      | [] =>
          let post : Post :=
            ⟨next_post_id, news_id, generated_text, none,
              PostStatus.GENERATED, now⟩
          ⟨posts ++ [post], some next_post_id, false, none⟩
      | [existing_post] =>
          ⟨posts.map (fun p =>
              if p.id = existing_post.id then
                { p with generated_text := generated_text }
              else p),
            some existing_post.id, false, none⟩
      | _ => ⟨posts, none, false, none⟩

/-- The dispatch decision as one boolean formula: the filter must pass and the
unit must have neither a PUBLISHED nor an active (NEW/GENERATED) artifact. -/
theorem dispatchStep_eq (h : String → String) (db : List NewsItem)
    (dbKeywords : List Keyword) (posts : List Post) (item : NewsItem) :
    dispatchStep h db dbKeywords posts item =
      ((should_generate_post (fun _ => none) h item db dbKeywords
          none none none false true).1 &&
        !posts.any (fun p =>
          p.news_id = item.id ∧ p.status = PostStatus.PUBLISHED) &&
        !posts.any (fun p => p.news_id = item.id ∧
          (p.status = PostStatus.GENERATED ∨ p.status = PostStatus.NEW))) := by
  unfold dispatchStep
  cases hsg : (should_generate_post (fun _ => none) h item db dbKeywords
      none none none false true).1 <;>
    cases hpub : posts.any (fun p =>
      p.news_id = item.id ∧ p.status = PostStatus.PUBLISHED) <;>
    cases hact : posts.any (fun p => p.news_id = item.id ∧
      (p.status = PostStatus.GENERATED ∨ p.status = PostStatus.NEW)) <;>
    simp [hsg, hpub, hact]

theorem not_mem_sweep_of_dispatchStep_false (h : String → String)
    (db : List NewsItem) (dbKeywords : List Keyword) (posts : List Post)
    (uid : String)
    (hstep : ∀ v ∈ db, v.id = uid →
      dispatchStep h db dbKeywords posts v = false) :
    uid ∉ _process_news_items_async h db dbKeywords posts := by
  intro hin
  unfold _process_news_items_async at hin
  rw [List.mem_map] at hin
  obtain ⟨v, hv, hvid⟩ := hin
  rw [List.mem_filter] at hv
  obtain ⟨hvwin, hvstep⟩ := hv
  rw [hstep v (mem_selectNewsForProcessing hvwin) hvid] at hvstep
  cases hvstep

/-- C8.  A candidate unit that already has a PUBLISHED artifact is never
enqueued for generation by a dispatch sweep. -/
theorem published_never_regenerated (h : String → String)
    (db : List NewsItem) (dbKeywords : List Keyword) (posts : List Post)
    (uid : String)
    (hpub : ∃ p ∈ posts,
      p.news_id = uid ∧ p.status = PostStatus.PUBLISHED) :
    uid ∉ _process_news_items_async h db dbKeywords posts := by
  apply not_mem_sweep_of_dispatchStep_false
  intro v _ hvid
  rw [dispatchStep_eq]
  have hany : posts.any (fun p =>
      p.news_id = v.id ∧ p.status = PostStatus.PUBLISHED) = true := by
    rw [List.any_eq_true]
    obtain ⟨p, hp, hp1, hp2⟩ := hpub
    exact ⟨p, hp, by simp [hvid, hp1, hp2]⟩
  rw [hany]
  simp

/-- C8 witness: with a PUBLISHED artifact stored for unit `n1`, a sweep over a
database containing `n1` does not enqueue it. -/
theorem published_never_regenerated_witness :
    "n1" ∉ _process_news_items_async (fun s => s)
        [⟨"n1", "T", none, "s", "src", some 1, 0, none, 0⟩] []
        [⟨1, "n1", "text", some 5, PostStatus.PUBLISHED, 0⟩] ∧
    (⟨1, "n1", "text", some 5, PostStatus.PUBLISHED, 0⟩ : Post).status =
      PostStatus.PUBLISHED := by
  refine ⟨?_, rfl⟩
  exact published_never_regenerated (fun s => s)
    [⟨"n1", "T", none, "s", "src", some 1, 0, none, 0⟩] []
    [⟨1, "n1", "text", some 5, PostStatus.PUBLISHED, 0⟩] "n1"
    ⟨⟨1, "n1", "text", some 5, PostStatus.PUBLISHED, 0⟩, by simp, rfl, rfl⟩

/-- C2.  The single-active-artifact discipline: (1) a dispatch sweep never
enqueues generation for a unit that already has a NEW or GENERATED artifact;
(2) a generation run for a unit with exactly one GENERATED artifact overwrites
that row's text in place, inserting nothing; (3) a unit enqueued by a sweep
has no artifact yet in GENERATED state, the generation run then adds exactly
one GENERATED row, and a second sweep no longer enqueues the unit — two
back-to-back sweeps produce exactly one artifact, never two GENERATED rows. -/
theorem single_active_artifact :
    (∀ (h : String → String) (db : List NewsItem) (dbKeywords : List Keyword)
        (posts : List Post) (uid : String),
      (∃ p ∈ posts, p.news_id = uid ∧
        (p.status = PostStatus.NEW ∨ p.status = PostStatus.GENERATED)) →
      uid ∉ _process_news_items_async h db dbKeywords posts) ∧
    (∀ (db : List NewsItem) (posts : List Post) (uid : String) (q : Post)
        (t : String) (nid : Nat) (now : Int),
      db.any (fun n => n.id = uid) = true →
      posts.filter (fun p =>
        p.news_id = uid ∧ p.status = PostStatus.GENERATED) = [q] →
      (_generate_post_for_news_async db posts uid (Except.ok t) nid
          now).posts =
        posts.map (fun p =>
          if p.id = q.id then { p with generated_text := t } else p) ∧
      (_generate_post_for_news_async db posts uid (Except.ok t) nid
          now).posts.length = posts.length) ∧
    (∀ (h : String → String) (db : List NewsItem) (dbKeywords : List Keyword)
        (posts : List Post) (uid : String) (t : String) (nid : Nat)
        (now : Int),
      uid ∈ _process_news_items_async h db dbKeywords posts →
      (_generate_post_for_news_async db posts uid (Except.ok t) nid
          now).posts =
        posts ++ [⟨nid, uid, t, none, PostStatus.GENERATED, now⟩] ∧
      uid ∉ _process_news_items_async h db dbKeywords
        (_generate_post_for_news_async db posts uid (Except.ok t) nid
          now).posts ∧
      ((_generate_post_for_news_async db posts uid (Except.ok t) nid
          now).posts.filter (fun p =>
            p.news_id = uid ∧ p.status = PostStatus.GENERATED)).length = 1 ∧
      ((_generate_post_for_news_async db posts uid (Except.ok t) nid
          now).posts.filter (fun p => p.news_id = uid)).length =
        (posts.filter (fun p => p.news_id = uid)).length + 1) := by
  have active_skip : ∀ (h : String → String) (db : List NewsItem)
      (dbKeywords : List Keyword) (posts : List Post) (uid : String),
      (∃ p ∈ posts, p.news_id = uid ∧
        (p.status = PostStatus.NEW ∨ p.status = PostStatus.GENERATED)) →
      uid ∉ _process_news_items_async h db dbKeywords posts := by
    intro h db dbKeywords posts uid hact
    apply not_mem_sweep_of_dispatchStep_false
    intro v _ hvid
    rw [dispatchStep_eq]
    have hany : posts.any (fun p => p.news_id = v.id ∧
        (p.status = PostStatus.GENERATED ∨ p.status = PostStatus.NEW))
        = true := by
      rw [List.any_eq_true]
      obtain ⟨p, hp, hp1, hp2⟩ := hact
      exact ⟨p, hp, decide_eq_true ⟨hp1.trans hvid.symm, hp2.symm⟩⟩
    rw [hany]
    simp
  refine ⟨active_skip, ?_, ?_⟩
  · intro db posts uid q t nid now hnews hfilter
    have hrun : _generate_post_for_news_async db posts uid (Except.ok t) nid
        now =
        ⟨posts.map (fun p =>
            if p.id = q.id then { p with generated_text := t } else p),
          some q.id, false, none⟩ := by
      unfold _generate_post_for_news_async
      rw [hnews, hfilter]
      rfl
    refine ⟨by rw [hrun], ?_⟩
    rw [hrun]
    simp
  · intro h db dbKeywords posts uid t nid now hq
    obtain ⟨v, hvwin, hvstep, hvid⟩ : ∃ v, v ∈ selectNewsForProcessing db ∧
        dispatchStep h db dbKeywords posts v = true ∧ v.id = uid := by
      unfold _process_news_items_async at hq
      rw [List.mem_map] at hq
      obtain ⟨v, hv, hvid⟩ := hq
      rw [List.mem_filter] at hv
      exact ⟨v, hv.1, hv.2, hvid⟩
    have hvdb : v ∈ db := mem_selectNewsForProcessing hvwin
    have hnews : db.any (fun n => n.id = uid) = true := by
      rw [List.any_eq_true]
      exact ⟨v, hvdb, decide_eq_true hvid⟩
    rw [dispatchStep_eq] at hvstep
    have hact : posts.any (fun p => p.news_id = v.id ∧
        (p.status = PostStatus.GENERATED ∨ p.status = PostStatus.NEW))
        = false := by
      rcases hb : posts.any (fun p => p.news_id = v.id ∧
          (p.status = PostStatus.GENERATED ∨ p.status = PostStatus.NEW)) with
        _ | _
      · rfl
      · rw [hb] at hvstep
        simp at hvstep
    have hnone : ∀ p ∈ posts, ¬(p.news_id = uid ∧
        p.status = PostStatus.GENERATED) := by
      intro p hp hcontra
      have := List.any_eq_false.mp hact p hp
      simp only [decide_eq_true_eq] at this
      exact this ⟨hcontra.1.trans hvid.symm, Or.inl hcontra.2⟩
    have hfilter : posts.filter (fun p =>
        p.news_id = uid ∧ p.status = PostStatus.GENERATED) = [] := by
      rw [List.filter_eq_nil_iff]
      intro p hp
      simpa using hnone p hp
    have hgen : _generate_post_for_news_async db posts uid (Except.ok t) nid
        now =
        ⟨posts ++ [⟨nid, uid, t, none, PostStatus.GENERATED, now⟩],
          some nid, false, none⟩ := by
      unfold _generate_post_for_news_async
      rw [hnews, hfilter]
      rfl
    refine ⟨by rw [hgen], ?_, ?_, ?_⟩
    · rw [hgen]
      exact active_skip h db dbKeywords _ uid
        ⟨⟨nid, uid, t, none, PostStatus.GENERATED, now⟩, by simp, rfl,
          Or.inr rfl⟩
    · rw [hgen]
      simp only [List.filter_append, hfilter]
      simp
    · rw [hgen]
      simp [List.filter_append]

/-- C2 witness: for a concrete unit `n1` — (1) a sweep skips it when a
GENERATED artifact exists; (2) a generation run over its single GENERATED
artifact rewrites the text in place, leaving one row; (3) with no artifact it
is enqueued, and after the generation run a second sweep skips it. -/
theorem single_active_artifact_witness :
    "n1" ∉ _process_news_items_async (fun s => s)
        [⟨"n1", "T", none, "s", "src", some 1, 0, none, 0⟩] []
        [⟨1, "n1", "old", none, PostStatus.GENERATED, 0⟩] ∧
    (_generate_post_for_news_async
        [⟨"n1", "T", none, "s", "src", some 1, 0, none, 0⟩]
        [⟨1, "n1", "old", none, PostStatus.GENERATED, 0⟩]
        "n1" (Except.ok "new") 2 7).posts =
      [⟨1, "n1", "new", none, PostStatus.GENERATED, 0⟩] ∧
    "n1" ∈ _process_news_items_async (fun s => s)
        [⟨"n1", "T", none, "s", "src", some 1, 0, none, 0⟩] [] [] ∧
    "n1" ∉ _process_news_items_async (fun s => s)
        [⟨"n1", "T", none, "s", "src", some 1, 0, none, 0⟩] []
        (_generate_post_for_news_async
          [⟨"n1", "T", none, "s", "src", some 1, 0, none, 0⟩] []
          "n1" (Except.ok "new") 1 7).posts := by
  have hmem : "n1" ∈ _process_news_items_async (fun s => s)
      [⟨"n1", "T", none, "s", "src", some 1, 0, none, 0⟩] [] [] := by decide
  refine ⟨?_, ?_, hmem, ?_⟩
  · exact single_active_artifact.1 (fun s => s) _ [] _ "n1"
      ⟨⟨1, "n1", "old", none, PostStatus.GENERATED, 0⟩, by simp, rfl,
        Or.inr rfl⟩
  · exact ((single_active_artifact.2.1 _ _ "n1"
      ⟨1, "n1", "old", none, PostStatus.GENERATED, 0⟩ "new" 2 7 (by decide)
      (by decide)).1).trans (by decide)
  · exact (single_active_artifact.2.2 (fun s => s) _ [] [] "n1" "new" 1 7
      hmem).2.1

/-- C7 counterexample: a generation run hitting a provider error performs no
retry at all — it requests no Celery retry (in particular not one with the
declared `GENERATE_RETRY_DELAY_SECONDS` backoff), merely logs the error and
leaves the posts table empty; the claim's "retried up to a bounded count with
a fixed backoff delay" does not happen. -/
theorem generation_retry_cex :
    (_generate_post_for_news_async
        [⟨"n1", "T", none, "s", "src", some 1, 0, none, 0⟩] [] "n1"
        (Except.error ()) 5 0).retry_delay = none ∧
    (_generate_post_for_news_async
        [⟨"n1", "T", none, "s", "src", some 1, 0, none, 0⟩] [] "n1"
        (Except.error ()) 5 0).retry_delay ≠
      some GENERATE_RETRY_DELAY_SECONDS ∧
    (_generate_post_for_news_async
        [⟨"n1", "T", none, "s", "src", some 1, 0, none, 0⟩] [] "n1"
        (Except.error ()) 5 0).posts = [] ∧
    (_generate_post_for_news_async
        [⟨"n1", "T", none, "s", "src", some 1, 0, none, 0⟩] [] "n1"
        (Except.error ()) 5 0).provider_error_logged = true := by
  decide

/-- C7 (amended).  On a classified provider error the generation task logs the
error and completes without requesting any retry (the decorator's
`max_retries`/`default_retry_delay` are never exercised because the body
swallows the exception); no artifact is created, the posts table is unchanged,
and the unit remains exactly as eligible for dispatch on the next sweep as
before. -/
theorem generation_provider_error_no_retry (h : String → String)
    (db : List NewsItem) (dbKeywords : List Keyword) (posts : List Post)
    (uid : String) (nid : Nat) (now : Int)
    (hnews : db.any (fun n => n.id = uid) = true) :
    _generate_post_for_news_async db posts uid (Except.error ()) nid now =
      ⟨posts, none, true, none⟩ ∧
    (uid ∈ _process_news_items_async h db dbKeywords posts →
      uid ∈ _process_news_items_async h db dbKeywords
        (_generate_post_for_news_async db posts uid (Except.error ()) nid
          now).posts) := by
  have hrun : _generate_post_for_news_async db posts uid (Except.error ())
      nid now = ⟨posts, none, true, none⟩ := by
    unfold _generate_post_for_news_async
    rw [hnews]
    rfl
  exact ⟨hrun, fun hin => by rw [hrun]; exact hin⟩

/-- C7 witness: the amended no-retry behaviour at a concrete failing run. -/
theorem generation_provider_error_no_retry_witness :
    _generate_post_for_news_async
        [⟨"n1", "T", none, "s", "src", some 1, 0, none, 0⟩] [] "n1"
        (Except.error ()) 7 3 =
      ⟨[], none, true, none⟩ := by
  exact (generation_provider_error_no_retry (fun s => s) _ [] [] "n1" 7 3
    (by decide)).1

/-! ## Publish controller (src/app/telegram/publisher.py and
src/app/tasks.py lines 543-644) -/

/-- Result of one `client.send_message` call (publisher.py line 171): success
with the Telegram message id, a `FloodWaitError` carrying the wait in seconds,
or any other error (`ChannelInvalidError`, `UsernameInvalidError`, generic
exceptions), which the surrounding handlers treat alike. -/
inductive SendResult where
  | ok (message_id : Nat)
  | floodWait (seconds : Nat)
  | err
deriving DecidableEq, Repr

/-- Outcome of the send/retry loop. -/
inductive SendOutcome where
  | success (message_id : Nat)
  | floodExhausted (seconds : Nat)
  | failed
deriving DecidableEq, Repr

/-- `max_retries` of the send loop (publisher.py line 167). -/
def PUBLISHER_MAX_RETRIES : Nat := 3

/-- The send/retry loop (publisher.py lines 167-193): try to send; on
`FloodWaitError` increment the attempt counter and, while attempts remain,
`await asyncio.sleep(wait_time + 1)` (line 186) and retry, else re-raise the
flood error; any other error propagates immediately.  `send` maps the index of
each `send_message` call to its result; `fuel` is
`max_retries - retry_count`.  Returns the outcome, the list of sleeps
performed (in seconds) and the number of `send_message` calls made. -/
def publishSendLoop (send : Nat → SendResult) :
    Nat → Nat → SendOutcome × List Nat × Nat
  | 0, _ => (.failed, [], 0)
  | fuel + 1, attempt =>
    match send attempt with
    | .ok mid => (.success mid, [], 1)
    | .err => (.failed, [], 1)
    | .floodWait w =>
      if fuel = 0 then (.floodExhausted w, [], 1)
      else
        let rest := publishSendLoop send fuel (attempt + 1)
        (rest.1, (w + 1) :: rest.2.1, rest.2.2 + 1)

/-- `TelegramPublisher._mark_post_as_failed` (publisher.py lines 95-120): with
a truthy post id and a session, set that post's status to FAILED (reloading
the row when it was not passed in); otherwise do nothing. -/
def TelegramPublisher._mark_post_as_failed (posts : List Post)
    (post_id : Option Nat) (dbGiven : Bool) : List Post :=
  if natOptTruthy post_id ∧ dbGiven then
    posts.map (fun p =>
      if p.id = post_id.getD 0 then { p with status := PostStatus.FAILED }
      else p)
  else posts

/-- Python `str.rstrip()`. -/
def strRstrip (s : String) : String :=
  (s.toList.reverse.dropWhile Char.isWhitespace).reverse.asString

/-- The final message text (publisher.py lines 152-156): the given text, with
the originating unit's url appended as a source line when the post row and a
non-empty url are at hand. -/
def composeMessageText (text : String) (post : Option Post)
    (news : List NewsItem) : String :=
  match post with
  | some p =>
    match (news.find? (fun n => n.id = p.news_id)).bind
        (fun n => n.url) with
    | some u =>
        if u ≠ "" then strRstrip text ++ "\n\n🔗 Источник: " ++ u else text
    | none => text
  | none => text

/-- The observable result of one `TelegramPublisher.publish_post` call. -/
structure PublishResult where
  /-- the returned value: `some` Telegram message id, or `None` -/
  message_id : Option Nat
  /-- the `posts` table after the call -/
  posts : List Post
  /-- the sleeps performed by the flood-wait backoff, in seconds -/
  sleeps : List Nat
  /-- how many `send_message` calls were made -/
  send_calls : Nat
  /-- the text handed to `send_message`, when the send path was reached -/
  message_text : Option String
deriving DecidableEq, Repr

/-- The tail of `publish_post` from the send loop on (publisher.py
lines 158-242), after the empty-text and already-published early returns:
run the retry loop; on success set the loaded post (if any) to PUBLISHED with
`published_at = now` (lines 195-203); on flood exhaustion or any other error
mark it FAILED (lines 219-242) and return `None`. -/
def publish_post_send (send : Nat → SendResult) (now : Int)
    (post_id : Option Nat) (dbGiven : Bool) (posts : List Post)
    (message_text : String) : PublishResult :=
  match publishSendLoop send PUBLISHER_MAX_RETRIES 0 with
  | (.success mid, sleeps, calls) =>
    let posts' :=
      if natOptTruthy post_id ∧ dbGiven then
        posts.map (fun p =>
          if p.id = post_id.getD 0 then
            { p with status := PostStatus.PUBLISHED,
                     published_at := some now }
          else p)
      else posts
    ⟨some mid, posts', sleeps, calls, some message_text⟩
  | (.floodExhausted _, sleeps, calls) =>
    ⟨none, TelegramPublisher._mark_post_as_failed posts post_id dbGiven,
      sleeps, calls, some message_text⟩
  | (.failed, sleeps, calls) =>
    ⟨none, TelegramPublisher._mark_post_as_failed posts post_id dbGiven,
      sleeps, calls, some message_text⟩

/-- `TelegramPublisher.publish_post` (publisher.py lines 122-242).  Empty or
whitespace-only text fails at once, marking the post FAILED when a truthy
post id and a session were supplied (lines 130-134); with a truthy post id
and session the row is loaded, and a row already PUBLISHED with a set
`published_at` is skipped, returning `None` (lines 136-150); otherwise the
message is composed and sent through the retry loop. -/
def TelegramPublisher.publish_post (send : Nat → SendResult) (now : Int)
    (text : String) (post_id : Option Nat) (dbGiven : Bool)
    (posts : List Post) (news : List NewsItem) : PublishResult :=
  if strTrim text = "" then
    ⟨none, TelegramPublisher._mark_post_as_failed posts post_id dbGiven,
      [], 0, none⟩
  else
    match (if natOptTruthy post_id ∧ dbGiven then
        posts.find? (fun p => p.id = post_id.getD 0) else none) with
    | some p =>
      if p.status = PostStatus.PUBLISHED ∧ p.published_at ≠ none then
        ⟨none, posts, [], 0, none⟩
      else
        publish_post_send send now post_id dbGiven posts
          (composeMessageText text (some p) news)
    | none =>
        publish_post_send send now post_id dbGiven posts
          (composeMessageText text none news)

/-- `_publish_post_async` (tasks.py lines 543-601): load the post; missing →
nothing; already PUBLISHED with a set `published_at` → return untouched
(lines 555-557); otherwise call the publisher with the stored text, and when
it returns `None` set the post FAILED (lines 582-594). -/
def _publish_post_async (send : Nat → SendResult) (now : Int)
    (posts : List Post) (news : List NewsItem) (post_id : Nat) :
    List Post :=
  match posts.find? (fun p => p.id = post_id) with
  | none => posts
  | some post =>
    if post.status = PostStatus.PUBLISHED ∧ post.published_at ≠ none then
      posts
    else
      let r := TelegramPublisher.publish_post send now post.generated_text
        (some post_id) true posts news
      match r.message_id with
      | some _ => r.posts
      | none => r.posts.map (fun p =>
          if p.id = post_id then { p with status := PostStatus.FAILED }
          else p)

/-- Insertion step of the id-ascending sort. -/
def insertByIdAsc (a : Post) : List Post → List Post
  | [] => [a]
  | b :: l =>
      if a.id ≤ b.id then a :: b :: l
      else b :: insertByIdAsc a l

/-- `ORDER BY id ASC` (tasks.py line 618). -/
def sortPostsAsc : List Post → List Post
  | [] => []
  | a :: l => insertByIdAsc a (sortPostsAsc l)

/-- `_publish_generated_posts_async` (tasks.py lines 613-644): the ids of the
GENERATED posts (ordered by id ascending, capped at `PUBLISH_BATCH_LIMIT`)
for which the republish sweep enqueues a `publish_post` task; the sweep itself
mutates no row. -/
def _publish_generated_posts_async (posts : List Post) : List Nat :=
  ((sortPostsAsc (posts.filter
      (fun p => p.status = PostStatus.GENERATED))).take
    PUBLISH_BATCH_LIMIT).map (fun p => p.id)

theorem find?_map_of_id_fixed (g : Post → Post)
    (hg : ∀ p, (g p).id = p.id) (posts : List Post) (pid : Nat) :
    (posts.map g).find? (fun p => p.id = pid) =
      (posts.find? (fun p => p.id = pid)).map g := by
  induction posts with
  | nil => rfl
  | cons a l ih =>
    by_cases hcond : a.id = pid
    · simp [List.find?, hg, hcond]
    · simp only [List.map_cons, List.find?, hg, hcond, decide_False]
      exact ih

theorem mem_map_of_id_ne (g : Post → Post) (pid : Nat)
    (hfix : ∀ p, p.id ≠ pid → g p = p) (posts : List Post) (p : Post)
    (hp : p ∈ posts) (hne : p.id ≠ pid) : p ∈ posts.map g := by
  have := List.mem_map_of_mem g hp
  rwa [hfix p hne] at this

theorem mark_post_as_failed_find (posts : List Post) (pid : Nat) (q : Post)
    (hpid : pid ≠ 0) (hfind : posts.find? (fun p => p.id = pid) = some q) :
    (TelegramPublisher._mark_post_as_failed posts (some pid) true).find?
        (fun p => p.id = pid) =
      some { q with status := PostStatus.FAILED } := by
  have hq : q.id = pid := by
    have := List.find?_some hfind
    simpa using this
  unfold TelegramPublisher._mark_post_as_failed
  rw [if_pos ⟨by simp [natOptTruthy, hpid], rfl⟩]
  rw [find?_map_of_id_fixed _ (fun p => by by_cases hc : p.id = pid <;>
    simp [hc]) posts pid, hfind]
  simp [hq]

theorem mark_post_as_failed_keeps_others (posts : List Post) (pid : Nat)
    (p : Post) (hp : p ∈ posts) (hne : p.id ≠ pid) :
    p ∈ TelegramPublisher._mark_post_as_failed posts (some pid) true := by
  unfold TelegramPublisher._mark_post_as_failed
  split
  · exact mem_map_of_id_ne _ pid (fun r hr => by simp [hr]) posts p hp hne
  · exact hp

/-- C10.  A publish call with empty or whitespace-only text sends nothing,
sleeps nothing and returns `None` (failure); when a (truthy) post id and a
session are supplied and the row exists, that artifact is set to FAILED and
every other row is untouched. -/
theorem publish_empty_text_fails :
    (∀ (send : Nat → SendResult) (now : Int) (text : String)
        (post_id : Option Nat) (dbGiven : Bool) (posts : List Post)
        (news : List NewsItem), strTrim text = "" →
      (TelegramPublisher.publish_post send now text post_id dbGiven posts
          news).message_id = none ∧
      (TelegramPublisher.publish_post send now text post_id dbGiven posts
          news).send_calls = 0 ∧
      (TelegramPublisher.publish_post send now text post_id dbGiven posts
          news).sleeps = []) ∧
    (∀ (send : Nat → SendResult) (now : Int) (text : String) (pid : Nat)
        (posts : List Post) (news : List NewsItem) (q : Post),
      strTrim text = "" → pid ≠ 0 →
      posts.find? (fun p => p.id = pid) = some q →
      (TelegramPublisher.publish_post send now text (some pid) true posts
          news).posts.find? (fun p => p.id = pid) =
        some { q with status := PostStatus.FAILED } ∧
      (∀ p ∈ posts, p.id ≠ pid →
        p ∈ (TelegramPublisher.publish_post send now text (some pid) true
          posts news).posts)) := by
  have hrun : ∀ (send : Nat → SendResult) (now : Int) (text : String)
      (post_id : Option Nat) (dbGiven : Bool) (posts : List Post)
      (news : List NewsItem), strTrim text = "" →
      TelegramPublisher.publish_post send now text post_id dbGiven posts
        news =
        ⟨none, TelegramPublisher._mark_post_as_failed posts post_id dbGiven,
          [], 0, none⟩ := by
    intro send now text post_id dbGiven posts news htext
    unfold TelegramPublisher.publish_post
    rw [if_pos htext]
  constructor
  · intro send now text post_id dbGiven posts news htext
    rw [hrun send now text post_id dbGiven posts news htext]
    exact ⟨rfl, rfl, rfl⟩
  · intro send now text pid posts news q htext hpid hfind
    rw [hrun send now text (some pid) true posts news htext]
    exact ⟨mark_post_as_failed_find posts pid q hpid hfind,
      fun p hp hne => mark_post_as_failed_keeps_others posts pid p hp hne⟩

/-- C10 witness: whitespace-only text against a stored GENERATED artifact —
no send, `None` returned, the artifact FAILED. -/
theorem publish_empty_text_fails_witness :
    (TelegramPublisher.publish_post (fun _ => SendResult.ok 9) 5 " "
        (some 1) true [⟨1, "n1", "t", none, PostStatus.GENERATED, 0⟩]
        []).message_id = none ∧
    (TelegramPublisher.publish_post (fun _ => SendResult.ok 9) 5 " "
        (some 1) true [⟨1, "n1", "t", none, PostStatus.GENERATED, 0⟩]
        []).send_calls = 0 ∧
    (TelegramPublisher.publish_post (fun _ => SendResult.ok 9) 5 " "
        (some 1) true [⟨1, "n1", "t", none, PostStatus.GENERATED, 0⟩]
        []).posts.find? (fun p => p.id = 1) =
      some ⟨1, "n1", "t", none, PostStatus.FAILED, 0⟩ := by
  have h1 := publish_empty_text_fails.1 (fun _ => SendResult.ok 9) 5 " "
    (some 1) true [⟨1, "n1", "t", none, PostStatus.GENERATED, 0⟩] []
    (by decide)
  have h2 := publish_empty_text_fails.2 (fun _ => SendResult.ok 9) 5 " " 1
    [⟨1, "n1", "t", none, PostStatus.GENERATED, 0⟩] []
    ⟨1, "n1", "t", none, PostStatus.GENERATED, 0⟩
    (by decide) (by decide) (by decide)
  exact ⟨h1.1, h1.2.1, h2.1⟩

/-- C4 counterexample: (1) for an artifact PUBLISHED with `published_at` set,
the publisher-level attempt does leave everything unchanged, but it returns
`None` — the value every caller treats as failure — not a success value;
(2) an artifact whose status is PUBLISHED but whose `published_at` is missing
is not protected at all: the publish attempt re-sends and overwrites
`published_at`, so the claim's "every artifact whose status is already
PUBLISHED" fails. -/
theorem publish_idempotence_cex :
    (TelegramPublisher.publish_post (fun _ => SendResult.ok 7) 99 "txt"
        (some 1) true [⟨1, "n1", "txt", some 50, PostStatus.PUBLISHED, 0⟩]
        []).message_id.isSome = false ∧
    (TelegramPublisher.publish_post (fun _ => SendResult.ok 7) 99 "txt"
        (some 1) true [⟨1, "n1", "txt", some 50, PostStatus.PUBLISHED, 0⟩]
        []).posts = [⟨1, "n1", "txt", some 50, PostStatus.PUBLISHED, 0⟩] ∧
    _publish_post_async (fun _ => SendResult.ok 7) 99
        [⟨2, "n2", "txt", none, PostStatus.PUBLISHED, 0⟩] [] 2 =
      [⟨2, "n2", "txt", some 99, PostStatus.PUBLISHED, 0⟩] := by
  decide

/-- C4 (amended).  For every artifact that is PUBLISHED *and has
`published_at` set*, a publish attempt with its stored (non-blank) text is a
no-op: the task-level attempt returns with the whole table unchanged, and the
publisher-level attempt also changes nothing and sends nothing — but its
return value is `None`, the failure sentinel, not a success value.  (A
PUBLISHED artifact without `published_at` is re-published instead, as the
counterexample shows.) -/
theorem publish_already_published_noop (send : Nat → SendResult) (now : Int)
    (posts : List Post) (news : List NewsItem) (pid : Nat) (q : Post)
    (hfind : posts.find? (fun p => p.id = pid) = some q)
    (hst : q.status = PostStatus.PUBLISHED) (hpa : q.published_at ≠ none)
    (hpid : pid ≠ 0) (htext : ¬(strTrim q.generated_text = "")) :
    TelegramPublisher.publish_post send now q.generated_text (some pid) true
        posts news = ⟨none, posts, [], 0, none⟩ ∧
    _publish_post_async send now posts news pid = posts := by
  have hnt : natOptTruthy (some pid) = true := by simp [natOptTruthy, hpid]
  constructor
  · simp [TelegramPublisher.publish_post, htext, hnt, hfind, hst, hpa]
  · simp [_publish_post_async, hfind, hst, hpa]

/-- C4 witness: the amended no-op at a concrete PUBLISHED artifact with
`published_at` set. -/
theorem publish_already_published_noop_witness :
    TelegramPublisher.publish_post (fun _ => SendResult.ok 3) 77 "body"
        (some 4) true [⟨4, "n4", "body", some 11, PostStatus.PUBLISHED, 1⟩]
        [] = ⟨none, [⟨4, "n4", "body", some 11, PostStatus.PUBLISHED, 1⟩],
          [], 0, none⟩ ∧
    _publish_post_async (fun _ => SendResult.ok 3) 77
        [⟨4, "n4", "body", some 11, PostStatus.PUBLISHED, 1⟩] [] 4 =
      [⟨4, "n4", "body", some 11, PostStatus.PUBLISHED, 1⟩] := by
  exact publish_already_published_noop (fun _ => SendResult.ok 3) 77
    [⟨4, "n4", "body", some 11, PostStatus.PUBLISHED, 1⟩] [] 4
    ⟨4, "n4", "body", some 11, PostStatus.PUBLISHED, 1⟩
    (by decide) rfl (by decide) (by decide) (by decide)

theorem publishSendLoop_flood (send : Nat → SendResult) (w : Nat → Nat)
    (hsend : ∀ k, send k = SendResult.floodWait (w k)) :
    publishSendLoop send PUBLISHER_MAX_RETRIES 0 =
      (SendOutcome.floodExhausted (w 2), [w 0 + 1, w 1 + 1], 3) := by
  simp [PUBLISHER_MAX_RETRIES, publishSendLoop, hsend 0, hsend 1, hsend 2]

/-- C6 counterexample: with the publisher signalling `FloodWait(3600)` on
every attempt, each backoff sleep lasts 3601 seconds — the signalled wait
*plus one* (publisher.py line 186, `asyncio.sleep(wait_time + 1)`) — not
"exactly that duration" as claimed; the bounded-retry/FAILED part of the
claim does hold (3 send attempts, artifact FAILED, `published_at` still
unset). -/
theorem publish_backoff_cex :
    (TelegramPublisher.publish_post (fun _ => SendResult.floodWait 3600) 99
        "txt" (some 1) true
        [⟨1, "n1", "txt", none, PostStatus.GENERATED, 0⟩] []).sleeps =
      [3601, 3601] ∧
    ((3601 : Nat) ≠ 3600) ∧
    (TelegramPublisher.publish_post (fun _ => SendResult.floodWait 3600) 99
        "txt" (some 1) true
        [⟨1, "n1", "txt", none, PostStatus.GENERATED, 0⟩] []).send_calls =
      3 ∧
    (TelegramPublisher.publish_post (fun _ => SendResult.floodWait 3600) 99
        "txt" (some 1) true
        [⟨1, "n1", "txt", none, PostStatus.GENERATED, 0⟩] []).message_id =
      none ∧
    (TelegramPublisher.publish_post (fun _ => SendResult.floodWait 3600) 99
        "txt" (some 1) true
        [⟨1, "n1", "txt", none, PostStatus.GENERATED, 0⟩] []).posts =
      [⟨1, "n1", "txt", none, PostStatus.FAILED, 0⟩] := by
  decide

/-- C6 (amended).  When every send attempt signals a rate limit with an
explicit wait, `publish_post` sleeps the signalled duration *plus one second*
before each retry, bounded by `PUBLISHER_MAX_RETRIES = 3` send attempts in
all (hence two sleeps); on exhaustion the call returns `None`, the artifact
is marked FAILED and its `published_at` is left exactly as it was — never
set. -/
theorem publish_floodwait_exhaustion (send : Nat → SendResult)
    (w : Nat → Nat) (now : Int) (text : String) (pid : Nat)
    (posts : List Post) (news : List NewsItem) (q : Post)
    (hsend : ∀ k, send k = SendResult.floodWait (w k))
    (htext : ¬(strTrim text = ""))
    (hfind : posts.find? (fun p => p.id = pid) = some q)
    (hpid : pid ≠ 0)
    (hnp : ¬(q.status = PostStatus.PUBLISHED ∧ q.published_at ≠ none)) :
    (TelegramPublisher.publish_post send now text (some pid) true posts
        news).message_id = none ∧
    (TelegramPublisher.publish_post send now text (some pid) true posts
        news).sleeps = [w 0 + 1, w 1 + 1] ∧
    (TelegramPublisher.publish_post send now text (some pid) true posts
        news).send_calls = PUBLISHER_MAX_RETRIES ∧
    (TelegramPublisher.publish_post send now text (some pid) true posts
        news).posts.find? (fun p => p.id = pid) =
      some { q with status := PostStatus.FAILED } ∧
    ((TelegramPublisher.publish_post send now text (some pid) true posts
        news).posts.find? (fun p => p.id = pid)).map
      (fun p => p.published_at) = some q.published_at := by
  have hnt : natOptTruthy (some pid) = true := by simp [natOptTruthy, hpid]
  have hrun : TelegramPublisher.publish_post send now text (some pid) true
      posts news =
      ⟨none, TelegramPublisher._mark_post_as_failed posts (some pid) true,
        [w 0 + 1, w 1 + 1], 3,
        some (composeMessageText text (some q) news)⟩ := by
    simp [TelegramPublisher.publish_post, htext, hnt, hfind, hnp,
      publish_post_send, publishSendLoop_flood send w hsend]
  rw [hrun]
  have hmark := mark_post_as_failed_find posts pid q hpid hfind
  exact ⟨rfl, rfl, rfl, hmark, by rw [hmark]; rfl⟩

/-- C6 witness: the amended backoff behaviour at a concrete run where every
attempt signals `FloodWait(5)`. -/
theorem publish_floodwait_exhaustion_witness :
    (TelegramPublisher.publish_post (fun _ => SendResult.floodWait 5) 42
        "body" (some 2) true
        [⟨2, "n2", "body", none, PostStatus.GENERATED, 1⟩] []).sleeps =
      [6, 6] ∧
    (TelegramPublisher.publish_post (fun _ => SendResult.floodWait 5) 42
        "body" (some 2) true
        [⟨2, "n2", "body", none, PostStatus.GENERATED, 1⟩] []).posts.find?
      (fun p => p.id = 2) =
      some ⟨2, "n2", "body", none, PostStatus.FAILED, 1⟩ := by
  have hx := publish_floodwait_exhaustion (fun _ => SendResult.floodWait 5)
    (fun _ => 5) 42 "body" 2
    [⟨2, "n2", "body", none, PostStatus.GENERATED, 1⟩] []
    ⟨2, "n2", "body", none, PostStatus.GENERATED, 1⟩
    (fun _ => rfl) (by decide) (by decide) (by decide) (by decide)
  exact ⟨hx.2.1, hx.2.2.2.1⟩

theorem mem_insertByIdAsc {a b : Post} {l : List Post} :
    a ∈ insertByIdAsc b l ↔ a = b ∨ a ∈ l := by
  induction l with
  | nil => simp [insertByIdAsc]
  | cons c l ih =>
      simp only [insertByIdAsc]
      split
      · simp
      · simp only [List.mem_cons, ih]
        tauto

theorem mem_sortPostsAsc {a : Post} {l : List Post} :
    a ∈ sortPostsAsc l ↔ a ∈ l := by
  induction l with
  | nil => simp [sortPostsAsc]
  | cons b l ih => simp [sortPostsAsc, mem_insertByIdAsc, ih]

/-- C3 counterexample: the pipeline's own publish task, run against an
artifact whose current status is FAILED, does not short-circuit (the guard at
tasks.py line 555 checks only PUBLISHED-with-`published_at`): with a
succeeding send it moves the artifact FAILED → PUBLISHED, a transition out of
a terminal state. -/
theorem lifecycle_cex :
    _publish_post_async (fun _ => SendResult.ok 42) 100
        [⟨1, "n1", "hello", none, PostStatus.FAILED, 0⟩] [] 1 =
      [⟨1, "n1", "hello", some 100, PostStatus.PUBLISHED, 0⟩] := by
  decide

/-- C3 (amended).  The terminal-state guards that do hold: (1) a generation
run never changes the id, unit reference, status or `published_at` of any
pre-existing artifact — in particular PUBLISHED and FAILED rows keep their
status; (2) the publish task is a no-op on an artifact that is PUBLISHED with
`published_at` set; (3) the republish sweep dispatches only artifacts whose
status is GENERATED, so it never touches PUBLISHED or FAILED rows.  The
publish task does *not* guard FAILED artifacts (or PUBLISHED ones lacking
`published_at`): run against such a row it re-attempts publication, as the
counterexample shows. -/
theorem lifecycle_terminal_guards :
    (∀ (db : List NewsItem) (posts : List Post) (uid : String)
        (gr : Except Unit String) (nid : Nat) (now : Int) (p : Post),
      p ∈ posts →
      ∃ q ∈ (_generate_post_for_news_async db posts uid gr nid now).posts,
        q.id = p.id ∧ q.news_id = p.news_id ∧ q.status = p.status ∧
        q.published_at = p.published_at) ∧
    (∀ (send : Nat → SendResult) (now : Int) (posts : List Post)
        (news : List NewsItem) (pid : Nat) (q : Post),
      posts.find? (fun p => p.id = pid) = some q →
      q.status = PostStatus.PUBLISHED → q.published_at ≠ none →
      _publish_post_async send now posts news pid = posts) ∧
    (∀ (posts : List Post) (pid : Nat),
      pid ∈ _publish_generated_posts_async posts →
      ∃ p ∈ posts, p.id = pid ∧ p.status = PostStatus.GENERATED) := by
  refine ⟨?_, ?_, ?_⟩
  · intro db posts uid gr nid now p hp
    unfold _generate_post_for_news_async
    rcases hn : db.any (fun n => n.id = uid) with _ | _
    · exact ⟨p, by simp [hn, hp]⟩
    · rcases gr with _ | t
      · exact ⟨p, by simp [hn, hp]⟩
      · rcases hfl : posts.filter (fun r =>
            r.news_id = uid ∧ r.status = PostStatus.GENERATED) with
          _ | ⟨e, _ | ⟨e₂, l⟩⟩
        · refine ⟨p, ?_, rfl, rfl, rfl, rfl⟩
          simp only [hn, hfl]
          simp [hp]
        · refine ⟨(fun r => if r.id = e.id then
              { r with generated_text := t } else r) p, ?_, ?_⟩
          · simp only [hn, hfl]
            simp only [Bool.not_true, Bool.false_eq_true, if_false]
            exact List.mem_map_of_mem _ hp
          · by_cases hpe : p.id = e.id <;> simp [hpe]
        · refine ⟨p, ?_, rfl, rfl, rfl, rfl⟩
          simp only [hn, hfl]
          simp [hp]
  · intro send now posts news pid q hfind hst hpa
    simp [_publish_post_async, hfind, hst, hpa]
  · intro posts pid hpid
    unfold _publish_generated_posts_async at hpid
    rw [List.mem_map] at hpid
    obtain ⟨p, hp, hpid'⟩ := hpid
    have hp₂ : p ∈ sortPostsAsc (posts.filter
        (fun r => r.status = PostStatus.GENERATED)) :=
      List.take_subset PUBLISH_BATCH_LIMIT _ hp
    have hp₃ := mem_sortPostsAsc.mp hp₂
    rw [List.mem_filter] at hp₃
    exact ⟨p, hp₃.1, hpid', by simpa using hp₃.2⟩

/-- C3 witness: the amended guards at concrete inputs — a generation run
leaves the status of a FAILED row and of a PUBLISHED row in place, the
publish task is a no-op on a PUBLISHED row with `published_at`, and a
republish sweep over a GENERATED, a PUBLISHED and a FAILED row dispatches
only the GENERATED one. -/
theorem lifecycle_terminal_guards_witness :
    (∃ q ∈ (_generate_post_for_news_async
        [⟨"n1", "T", none, "s", "src", some 1, 0, none, 0⟩]
        [⟨1, "n1", "x", none, PostStatus.FAILED, 0⟩] "n1"
        (Except.ok "y") 2 9).posts,
      q.id = 1 ∧ q.news_id = "n1" ∧ q.status = PostStatus.FAILED ∧
        q.published_at = none) ∧
    _publish_post_async (fun _ => SendResult.ok 8) 55
        [⟨3, "n3", "z", some 44, PostStatus.PUBLISHED, 0⟩] [] 3 =
      [⟨3, "n3", "z", some 44, PostStatus.PUBLISHED, 0⟩] ∧
    (∃ p ∈ ([⟨5, "a", "t", none, PostStatus.GENERATED, 0⟩,
        ⟨6, "b", "t", some 2, PostStatus.PUBLISHED, 0⟩,
        ⟨7, "c", "t", none, PostStatus.FAILED, 0⟩] : List Post),
      p.id = 5 ∧ p.status = PostStatus.GENERATED) := by
  refine ⟨?_, ?_, ?_⟩
  · have hx := lifecycle_terminal_guards.1
      [⟨"n1", "T", none, "s", "src", some 1, 0, none, 0⟩]
      [⟨1, "n1", "x", none, PostStatus.FAILED, 0⟩] "n1"
      (Except.ok "y") 2 9 ⟨1, "n1", "x", none, PostStatus.FAILED, 0⟩
      (by simp)
    obtain ⟨q, hq, h1, h2, h3, h4⟩ := hx
    exact ⟨q, hq, h1, h2, h3, h4⟩
  · exact lifecycle_terminal_guards.2.1 (fun _ => SendResult.ok 8) 55
      [⟨3, "n3", "z", some 44, PostStatus.PUBLISHED, 0⟩] [] 3
      ⟨3, "n3", "z", some 44, PostStatus.PUBLISHED, 0⟩
      (by decide) rfl (by decide)
  · exact lifecycle_terminal_guards.2.2
      [⟨5, "a", "t", none, PostStatus.GENERATED, 0⟩,
        ⟨6, "b", "t", some 2, PostStatus.PUBLISHED, 0⟩,
        ⟨7, "c", "t", none, PostStatus.FAILED, 0⟩] 5 (by decide)

/-! ## Source deletion (src/app/api/endpoints.py, `delete_source`,
lines 171-189) -/

/-- The three tables touched by `delete_source`. -/
structure DB where
  sources : List Source
  news_items : List NewsItem
  posts : List Post
deriving DecidableEq, Repr

/-- `delete_source` (endpoints.py lines 171-189): load the source (404 →
`none`); delete every post whose `news_id` is among the ids of this source's
news items (the `subq` of line 185), then every news item of the source, then
the source row itself.  All three deletes run on one session inside one
request, committed together by `get_db` (database.py lines 48-56), so the
whole step is a single state transition here. -/
def delete_source (db : DB) (source_id : Int) : Option DB :=
  match db.sources.find? (fun s => s.id = source_id) with
  | none => none
  | some _ =>
    let subq := (db.news_items.filter
      (fun n => n.source_id = some source_id)).map (fun n => n.id)
    let posts' := db.posts.filter (fun p => !(subq.contains p.news_id))
    let news' := db.news_items.filter
      (fun n => n.source_id ≠ some source_id)
    let sources' := db.sources.filter (fun s => s.id ≠ source_id)
    some ⟨sources', news', posts'⟩

/-- C9.  Deleting a source removes, in one step, exactly the source row,
every content unit referencing that source, and every artifact whose unit
belongs to that source; every other source, unit and artifact row is kept
verbatim. -/
theorem delete_source_cascade (db : DB) (source_id : Int) (d : DB)
    (hdel : delete_source db source_id = some d) :
    (∀ s : Source, s ∈ d.sources ↔ s ∈ db.sources ∧ s.id ≠ source_id) ∧
    (∀ n : NewsItem, n ∈ d.news_items ↔
      n ∈ db.news_items ∧ n.source_id ≠ some source_id) ∧
    (∀ p : Post, p ∈ d.posts ↔ p ∈ db.posts ∧
      ¬∃ n ∈ db.news_items,
        n.source_id = some source_id ∧ n.id = p.news_id) := by
  unfold delete_source at hdel
  rcases hfind : db.sources.find? (fun s => s.id = source_id) with _ | s₀
  · rw [hfind] at hdel
    cases hdel
  · rw [hfind] at hdel
    simp only [Option.some.injEq] at hdel
    subst hdel
    refine ⟨?_, ?_, ?_⟩
    · intro s
      simp [List.mem_filter]
    · intro n
      simp [List.mem_filter]
    · intro p
      simp only [List.mem_filter, Bool.not_eq_true']
      constructor
      · rintro ⟨hp, hc⟩
        refine ⟨hp, ?_⟩
        rintro ⟨n, hn, hn1, hn2⟩
        have hin : (((db.news_items.filter
            (fun n => n.source_id = some source_id)).map
            (fun n => n.id)).contains p.news_id) = true := by
          refine List.contains_iff_exists_mem_beq.mpr
            ⟨n.id, List.mem_map_of_mem _
              (List.mem_filter.mpr ⟨hn, by simp [hn1]⟩), ?_⟩
          exact beq_iff_eq.mpr hn2.symm
        rw [hin] at hc
        cases hc
      · rintro ⟨hp, hc⟩
        refine ⟨hp, ?_⟩
        rcases hmem : (((db.news_items.filter
            (fun n => n.source_id = some source_id)).map
            (fun n => n.id)).contains p.news_id) with _ | _
        · exact hmem
        · exfalso
          obtain ⟨a, ha, hbeq⟩ :=
            List.contains_iff_exists_mem_beq.mp hmem
          rw [List.mem_map] at ha
          obtain ⟨n, hnfil, hna⟩ := ha
          rw [List.mem_filter] at hnfil
          exact hc ⟨n, hnfil.1, by simpa using hnfil.2,
            hna.trans (beq_iff_eq.mp hbeq).symm⟩

/-- C9 witness: two sources, each with one unit and one artifact; deleting
source 1 removes its source row, unit `n1` and post 1, and keeps source 2's
unit `n2` and post 2 untouched. -/
theorem delete_source_cascade_witness :
    delete_source
        ⟨[⟨1, SourceType.SITE, "a", "u1", true, 0⟩,
          ⟨2, SourceType.SITE, "b", "u2", true, 0⟩],
         [⟨"n1", "T1", none, "s", "a", some 1, 0, none, 0⟩,
          ⟨"n2", "T2", none, "s", "b", some 2, 0, none, 0⟩],
         [⟨1, "n1", "x", none, PostStatus.GENERATED, 0⟩,
          ⟨2, "n2", "y", none, PostStatus.GENERATED, 0⟩]⟩ 1 =
      some ⟨[⟨2, SourceType.SITE, "b", "u2", true, 0⟩],
        [⟨"n2", "T2", none, "s", "b", some 2, 0, none, 0⟩],
        [⟨2, "n2", "y", none, PostStatus.GENERATED, 0⟩]⟩ ∧
    (⟨2, "n2", "y", none, PostStatus.GENERATED, 0⟩ : Post) ∈
      ([⟨2, "n2", "y", none, PostStatus.GENERATED, 0⟩] : List Post) ∧
    ¬(⟨1, "n1", "x", none, PostStatus.GENERATED, 0⟩ : Post) ∈
      ([⟨2, "n2", "y", none, PostStatus.GENERATED, 0⟩] : List Post) := by
  have hdel : delete_source
      ⟨[⟨1, SourceType.SITE, "a", "u1", true, 0⟩,
        ⟨2, SourceType.SITE, "b", "u2", true, 0⟩],
       [⟨"n1", "T1", none, "s", "a", some 1, 0, none, 0⟩,
        ⟨"n2", "T2", none, "s", "b", some 2, 0, none, 0⟩],
       [⟨1, "n1", "x", none, PostStatus.GENERATED, 0⟩,
        ⟨2, "n2", "y", none, PostStatus.GENERATED, 0⟩]⟩ 1 =
      some ⟨[⟨2, SourceType.SITE, "b", "u2", true, 0⟩],
        [⟨"n2", "T2", none, "s", "b", some 2, 0, none, 0⟩],
        [⟨2, "n2", "y", none, PostStatus.GENERATED, 0⟩]⟩ := by decide
  have hiff := (delete_source_cascade _ 1 _ hdel).2.2
    ⟨2, "n2", "y", none, PostStatus.GENERATED, 0⟩
  refine ⟨hdel, ?_, by decide⟩
  exact hiff.mpr ⟨by decide, by decide⟩

end Aibot
